import Mathlib

/-!
Verification of the LSFC Commission Corner Tracker front-end logic.

This file embeds, in Lean, the stateful logic of the repository:

* the seat-assignment view model (`artistSeats` memo in
  `src/components/events/ArtistSeat.tsx`, `EventSeats` component),
  including the exact JavaScript array semantics of
  `new Array(n).fill(null)` followed by `seats[artist.seat - 1] = artist`
  (an index `>= length` extends the array, a negative index becomes a
  non-index property and leaves the elements untouched);
* the selection-state route logic (`updateSelectedArtist` and the
  signal seeding in `src/routes/events_.$eventId.index.tsx`);
* the mock data gateway (`fetchEvent`, `fetchEventArtists` in
  `src/api/events.ts` and `fetchArtist` in `src/api/artists.ts`),
  with an explicit model of promise settlement for the executors used;
* the double-click confirm widget
  (`src/components/DoubleClickButton.tsx`).

Theorems at the end settle the specified properties of these functions.
-/

/-- `ArtistSummary` record from `src/api/artists.ts`.  The `seat` field is a
JavaScript number used as an array index, so it is embedded as `Int` (the
view-model claims constrain it to `[1, N]`, but the code itself does not). -/
structure ArtistSummary where
  name : String
  slug : String
  eventId : String
  imageUrl : String
  seat : Int
deriving DecidableEq, Repr

/-- A value stored in a slot of the JavaScript seat array: `null` (what
`fill(null)` writes), a hole reading as `undefined` (created when an index
assignment extends the array past its length), or an artist summary. -/
inductive JSVal where
  | null
  | undefined
  | summary (a : ArtistSummary)
deriving DecidableEq, Repr

/-- JavaScript semantics of `arr[i] = v` on an array, for a possibly
out-of-range numeric index `i`:

* `i < 0`: the assignment creates a string-keyed own property (`"-1"` etc.);
  the array elements and `length` are unchanged;
* `0 ≤ i < arr.length`: the element at `i` is replaced;
* `i ≥ arr.length`: the array is extended with holes up to `i` and `v` is
  stored at `i`, so `length` becomes `i + 1`. -/
def jsArraySet (arr : List JSVal) (i : Int) (v : JSVal) : List JSVal :=
  if i < 0 then arr
  else if i.toNat < arr.length then arr.set i.toNat v
  else arr ++ List.replicate (i.toNat - arr.length) JSVal.undefined ++ [v]

/-- The seat derivation of the `artistSeats` memo in
`src/components/events/ArtistSeat.tsx` (`EventSeats`), lines 67–71:

`const seats = new Array(n).fill(null);`
`summaries.forEach((artist) => { seats[artist.seat - 1] = artist; });`
`return seats;` -/
def artistSeats (n : Nat) (summaries : List ArtistSummary) : List JSVal :=
  summaries.foldl (fun seats a => jsArraySet seats (a.seat - 1) (JSVal.summary a))
    (List.replicate n JSVal.null)

/-- The last element of `l` satisfying `p`, in list order (specification
vocabulary for "last write wins"). -/
def lastWith (p : ArtistSummary → Bool) : List ArtistSummary → Option ArtistSummary
  | [] => none
  | a :: l =>
    match lastWith p l with
    | some b => some b
    | none => if p a then some a else none

/-- `EventDetails` record from `src/api/events.ts`.  `seatsAvailable` is
`number | null` in the source, hence `Option Int`. -/
structure EventDetails where
  name : String
  slug : String
  hostedBy : String
  hostedByUrl : String
  startDate : String
  endDate : String
  seats : Nat
  seatsAvailable : Option Int
deriving DecidableEq, Repr

/-- `EventsData` record from `src/api/events.ts`. -/
structure EventsData where
  current : List EventDetails
  upcoming : List EventDetails
  past : List EventDetails
deriving DecidableEq, Repr

/-- `MockEventData` from `src/api/events.ts`. -/
def MockEventData : EventsData :=
  { current :=
      [ { name := "Event 1", slug := "event-1", hostedBy := "LSFC",
          hostedByUrl := "http://lonestarfurcon.com/",
          startDate := "2025-12-01", endDate := "2025-12-02",
          seats := 10, seatsAvailable := some 5 },
        { name := "Event 2", slug := "event-2", hostedBy := "LSFC",
          hostedByUrl := "http://lonestarfurcon.com/",
          startDate := "2025-12-01", endDate := "2025-12-02",
          seats := 11, seatsAvailable := some 4 },
        { name := "Event 3", slug := "event-3", hostedBy := "LSFC",
          hostedByUrl := "http://lonestarfurcon.com/",
          startDate := "2025-12-01", endDate := "2025-12-02",
          seats := 4, seatsAvailable := some 4 } ],
    upcoming :=
      [ { name := "Event 4", slug := "event-4", hostedBy := "LSFC",
          hostedByUrl := "http://lonestarfurcon.com/",
          startDate := "2025-12-10", endDate := "2025-12-12",
          seats := 1, seatsAvailable := some 0 },
        { name := "Event 5", slug := "event-5", hostedBy := "LSFC",
          hostedByUrl := "http://lonestarfurcon.com/",
          startDate := "2025-12-11", endDate := "2025-12-12",
          seats := 12, seatsAvailable := some 0 },
        { name := "Event 6", slug := "event-6", hostedBy := "LSFC",
          hostedByUrl := "http://lonestarfurcon.com/",
          startDate := "2025-12-12", endDate := "2025-12-12",
          seats := 3, seatsAvailable := some 0 } ],
    past := [] }

/-- All mock events, in `Object.entries` iteration order of `MockEventData`
(insertion order: `current`, `upcoming`, `past`). -/
def allMockEvents : List EventDetails :=
  MockEventData.current ++ MockEventData.upcoming ++ MockEventData.past

/-- Full `Artist` record from `src/api/artists.ts`.  `commissionsRemaining`
is `number | null` and `active` is `boolean | null`. -/
structure Artist where
  name : String
  slug : String
  eventId : String
  details : String
  imageUrl : String
  profileUrl : String
  commissionsOpen : Bool
  commissionsRemaining : Option Int
  active : Option Bool
deriving DecidableEq, Repr

/-- `MockArtistData` from `src/api/artists.ts` (the `details` texts are
abbreviated URLs/strings kept verbatim where claims could depend on them:
`slug` and `eventId` drive every lookup). -/
def MockArtistData : List Artist :=
  [ { name := "Luna Starweaver", slug := "luna-starweaver", eventId := "event-1",
      details := "Digital artist specializing in fantasy creatures and celestial themes",
      imageUrl := "https://placehold.co/200x200",
      profileUrl := "https://twitter.com/lunastarweaver",
      commissionsOpen := true, commissionsRemaining := some 3, active := some true },
    { name := "Crimson Paws", slug := "crimson-paws", eventId := "event-1",
      details := "Traditional artist focusing on anthropomorphic characters",
      imageUrl := "https://placehold.co/200x200",
      profileUrl := "https://furaffinity.net/user/crimsonpaws",
      commissionsOpen := true, commissionsRemaining := none, active := some true },
    { name := "Crimson 2", slug := "crimson-2", eventId := "event-1",
      details := "Traditional artist focusing on anthropomorphic characters",
      imageUrl := "https://placehold.co/200x200",
      profileUrl := "https://furaffinity.net/user/crimsonpaws",
      commissionsOpen := true, commissionsRemaining := none, active := some false },
    { name := "Neon Tail Studios", slug := "neon-tail-studios", eventId := "event-2",
      details := "Cyberpunk and sci-fi themed furry art with vibrant colors",
      imageUrl := "https://placehold.co/200x200",
      profileUrl := "https://instagram.com/neontailstudios",
      commissionsOpen := false, commissionsRemaining := some 0, active := some true },
    { name := "Whisker Dreams", slug := "whisker-dreams", eventId := "event-2",
      details := "Soft pastel artwork featuring cute and wholesome characters",
      imageUrl := "https://placehold.co/200x200",
      profileUrl := "https://deviantart.com/whiskerdreams",
      commissionsOpen := true, commissionsRemaining := some 5, active := some true },
    { name := "Iron Claw Art", slug := "iron-claw-art", eventId := "event-2",
      details := "Bold, dynamic action scenes and character designs",
      imageUrl := "https://placehold.co/200x200",
      profileUrl := "https://artstation.com/ironclawart",
      commissionsOpen := true, commissionsRemaining := some 2, active := some true },
    { name := "Mystic Forest", slug := "mystic-forest", eventId := "event-3",
      details := "Nature-inspired artwork with magical forest creatures",
      imageUrl := "https://placehold.co/200x200",
      profileUrl := "https://twitter.com/mysticforestarts",
      commissionsOpen := true, commissionsRemaining := some 1, active := some true },
    { name := "Pixel Pounce", slug := "pixel-pounce", eventId := "event-3",
      details := "Retro pixel art and 8-bit style character sprites",
      imageUrl := "https://placehold.co/200x200",
      profileUrl := "https://pixiv.net/users/pixelpounce",
      commissionsOpen := true, commissionsRemaining := none, active := some true },
    { name := "Aurora Wings", slug := "aurora-wings", eventId := "event-4",
      details := "Ethereal winged creatures and celestial landscapes",
      imageUrl := "https://placehold.co/200x200",
      profileUrl := "https://furaffinity.net/user/aurorawings",
      commissionsOpen := false, commissionsRemaining := some 0, active := some true },
    { name := "Sketch & Snout", slug := "sketch-and-snout", eventId := "event-4",
      details := "Quick sketches and character studies with expressive poses",
      imageUrl := "https://placehold.co/200x200",
      profileUrl := "https://twitter.com/sketchandsnout",
      commissionsOpen := true, commissionsRemaining := some 4, active := some true },
    { name := "Prism Fur Co", slug := "prism-fur-co", eventId := "event-5",
      details := "Colorful geometric patterns and abstract furry art",
      imageUrl := "https://placehold.co/200x200",
      profileUrl := "https://instagram.com/prismfurco",
      commissionsOpen := true, commissionsRemaining := some 7, active := some true },
    { name := "Midnight Howl", slug := "midnight-howl", eventId := "event-5",
      details := "Dark fantasy and gothic-themed anthropomorphic characters",
      imageUrl := "https://placehold.co/200x200",
      profileUrl := "https://deviantart.com/midnighthowl",
      commissionsOpen := true, commissionsRemaining := some 2, active := some true },
    { name := "Sunny Scales", slug := "sunny-scales", eventId := "event-5",
      details := "Bright, cheerful reptilian and dragon characters",
      imageUrl := "https://placehold.co/200x200",
      profileUrl := "https://furaffinity.net/user/sunnyscales",
      commissionsOpen := false, commissionsRemaining := some 0, active := some true },
    { name := "Velvet Brush", slug := "velvet-brush", eventId := "event-6",
      details := "Elegant portraits with rich textures and detailed fur rendering",
      imageUrl := "https://placehold.co/200x200",
      profileUrl := "https://artstation.com/velvetbrush",
      commissionsOpen := true, commissionsRemaining := some 3, active := some true },
    { name := "Wild Strokes", slug := "wild-strokes", eventId := "event-6",
      details := "Expressive brushwork and dynamic wildlife-inspired characters",
      imageUrl := "https://placehold.co/200x200",
      profileUrl := "https://twitter.com/wildstrokes",
      commissionsOpen := true, commissionsRemaining := none, active := some true } ]

/-- Outcome of a JavaScript promise: settled (fulfilled or rejected with an
error message) or forever pending. -/
inductive PromiseOutcome (α : Type) where
  | fulfilled (a : α)
  | rejected (msg : String)
  | pending
deriving DecidableEq, Repr

/-- The event located by the loop in `fetchEvent` (`src/api/events.ts`,
lines 105–112): `Object.entries(MockEventData)` is walked in insertion
order (`current`, `upcoming`, `past`), and the first `resolve` call wins. -/
def findEventMock (eventId : String) : Option EventDetails :=
  match MockEventData.current.find? (fun e => decide (e.slug = eventId)) with
  | some e => some e
  | none =>
    match MockEventData.upcoming.find? (fun e => decide (e.slug = eventId)) with
    | some e => some e
    | none => MockEventData.past.find? (fun e => decide (e.slug = eventId))

/-- `fetchEvent` from `src/api/events.ts`, lines 102–116.  The first
component is the outcome of the returned promise; the second is the uncaught
exception escaping the `setTimeout` callback, if any.

The source's executor only receives `resolve`; after the lookup loop it
executes `throw new Error("Event Not Found")` unconditionally.  That throw
happens inside the timer callback — not synchronously inside the executor —
so it cannot reject the promise: when no event matches, the promise stays
pending forever, and on every call (found or not) the error surfaces as an
uncaught exception in the event loop. -/
def fetchEvent (eventId : String) : PromiseOutcome EventDetails × Option String :=
  (match findEventMock eventId with
   | some e => PromiseOutcome.fulfilled e
   | none => PromiseOutcome.pending,
   some "Event Not Found")

/-- `fetchArtist` from `src/api/artists.ts`, lines 201–212: resolves with the
first mock artist whose `slug` matches, rejects with `"Artist Not Found"`
otherwise. -/
def fetchArtist (artistId : String) : PromiseOutcome Artist :=
  match MockArtistData.find? (fun a => decide (a.slug = artistId)) with
  | some a => PromiseOutcome.fulfilled a
  | none => PromiseOutcome.rejected "Artist Not Found"

/-- JavaScript `Array.prototype.map` with the element index as second
callback argument, starting the index at `i`. -/
def mapIdxFrom {α β : Type} (f : Nat → α → β) : Nat → List α → List β
  | _, [] => []
  | i, a :: l => f i a :: mapIdxFrom f (i + 1) l

/-- The summary built for the artist at position `i` of the filtered list in
`fetchEventArtists` (`src/api/events.ts`, lines 126–134): `seat: index + 2`. -/
def summaryAt (i : Nat) (a : Artist) : ArtistSummary :=
  { name := a.name, slug := a.slug, eventId := a.eventId,
    imageUrl := a.imageUrl, seat := (i : Int) + 2 }

/-- `fetchEventArtists` from `src/api/events.ts`, lines 118–138: filter the
mock artists by `eventId`, then map each to a summary whose `seat` is its
position in the filtered list plus 2.  (The promise always resolves; its
value is all that matters here.) -/
def fetchEventArtists (eventId : String) : List ArtistSummary :=
  mapIdxFrom summaryAt 0 (MockArtistData.filter (fun a => decide (a.eventId = eventId)))

/-- State of the `CurrentEvent` route component
(`src/routes/events_.$eventId.index.tsx`): the `selectedArtist` signal, the
`artist` search (query) parameter of the navigation state (`none` = the
parameter is absent), the history length, and the current path (untouched by
selection updates). -/
structure RouteState where
  selectedArtist : Option String
  searchArtist : Option String
  historyLength : Nat
  path : String
deriving DecidableEq, Repr

/-- `updateSelectedArtist` from `src/routes/events_.$eventId.index.tsx`,
lines 25–40.  `if (!artist)` takes the falsy branch for both `null` and the
empty string; both branches call `nav` with `replace: true` (history length
unchanged) and then `setSelectedArtist(artist)`.  The falsy branch navigates
with `search: {artist: ""}` — it writes the empty string into the `artist`
query parameter rather than dropping the parameter. -/
def updateSelectedArtist (artist : Option String) (st : RouteState) : RouteState :=
  if artist = none ∨ artist = some "" then
    { st with searchArtist := some "", selectedArtist := artist }
  else
    { st with searchArtist := artist, selectedArtist := artist }

/-- Seeding of the `selectedArtist` signal on mount
(`src/routes/events_.$eventId.index.tsx`, line 23):
`createSignal(search().artist || null)` — an absent or empty `artist`
query parameter seeds `null`, anything else seeds itself. -/
def initialSelectedArtist (artistParam : Option String) : Option String :=
  match artistParam with
  | some s => if s = "" then none else some s
  | none => none

/-- The two query results feeding the `artistSeats` memo in `EventSeats`
(`src/components/events/ArtistSeat.tsx`): `none` while a fetch is pending. -/
structure EventSeatsQueryState where
  eventData : Option EventDetails
  artistSummaries : Option (List ArtistSummary)
deriving DecidableEq, Repr

/-- The full `artistSeats` memo (lines 63–72): returns `null` until both
queries have data, otherwise the derived seat list.  Reading the queries
mutates nothing, so the state is returned unchanged alongside the value. -/
def artistSeatsMemo (st : EventSeatsQueryState) :
    EventSeatsQueryState × Option (List JSVal) :=
  match st.eventData, st.artistSummaries with
  | some e, some l => (st, some (artistSeats e.seats l))
  | _, _ => (st, none)

/-- State of the `DoubleClickButton` widget
(`src/components/DoubleClickButton.tsx`): the `confirming` signal and the
pending auto-reset timer (`none` = no live timer; `some d` = a timer armed
with delay `d` ms). -/
structure DCState where
  confirming : Bool
  timer : Option Nat
deriving DecidableEq, Repr

/-- The reset delay hard-coded in `setTimeout(..., 5000)`. -/
def confirmResetDelayMs : Nat := 5000

/-- `handleDoubleClick` (`src/components/DoubleClickButton.tsx`, lines
21–30): returns the successor state and whether `onConfirm` was invoked by
this click.  Confirming: invoke `onConfirm`, leave confirming, cancel the
timer.  Not confirming: enter confirming and arm the reset timer. -/
def handleDoubleClick (st : DCState) : DCState × Bool :=
  if st.confirming then ({ confirming := false, timer := none }, true)
  else ({ confirming := true, timer := some confirmResetDelayMs }, false)

/-- The armed timer firing after its delay with no intervening click
(the `setTimeout` callback `() => setConfirming(false)`): reverts to idle
without invoking `onConfirm`.  A cleared (`none`) timer never fires. -/
def timerFire (st : DCState) : DCState × Bool :=
  match st.timer with
  | some _ => ({ confirming := false, timer := none }, false)
  | none => (st, false)

/-- A concrete artist summary with the given seat, for instantiating the
universally quantified theorems. -/
def sampleSummary (s : Int) : ArtistSummary :=
  { name := "a", slug := "a", eventId := "e", imageUrl := "u", seat := s }

/-- A second concrete artist summary, distinguishable from `sampleSummary`. -/
def sampleSummaryB (s : Int) : ArtistSummary :=
  { name := "b", slug := "b", eventId := "e", imageUrl := "u", seat := s }

/-- A concrete route state for instantiating the selection theorems. -/
def sampleRoute : RouteState :=
  { selectedArtist := some "luna-starweaver", searchArtist := some "luna-starweaver",
    historyLength := 5, path := "/events/event-1" }

theorem lastWith_eq_getLast?_filter (p : ArtistSummary → Bool) (l : List ArtistSummary) :
    lastWith p l = (l.filter p).getLast? := by
  induction l with
  | nil => rfl
  | cons a l ih =>
    simp only [lastWith, ih, List.filter_cons]
    cases hfp : l.filter p with
    | nil => by_cases hpa : p a <;> simp [hpa]
    | cons c t =>
      cases hlast : (c :: t).getLast? with
      | none => simp at hlast
      | some b => by_cases hpa : p a <;> simp [hpa, List.getLast?_cons_cons, hlast]

theorem lastWith_mem {p : ArtistSummary → Bool} {l : List ArtistSummary}
    {b : ArtistSummary} (h : lastWith p l = some b) : b ∈ l ∧ p b = true := by
  rw [lastWith_eq_getLast?_filter] at h
  have hmem := List.mem_of_getLast?_eq_some h
  exact List.mem_filter.mp hmem

theorem lastWith_eq_none {p : ArtistSummary → Bool} {l : List ArtistSummary}
    (h : ∀ a ∈ l, p a = false) : lastWith p l = none := by
  rw [lastWith_eq_getLast?_filter, List.getLast?_eq_none_iff, List.filter_eq_nil_iff]
  intro a ha
  simp [h a ha]

theorem length_jsArraySet_le (arr : List JSVal) (i : Int) (v : JSVal) :
    arr.length ≤ (jsArraySet arr i v).length := by
  unfold jsArraySet
  split
  · exact Nat.le_refl _
  · split
    · simp
    · simp only [List.length_append, List.length_replicate, List.length_cons,
        List.length_nil]
      omega

theorem length_jsArraySet_of_lt (arr : List JSVal) (i : Int) (v : JSVal)
    (h : 0 ≤ i → i.toNat < arr.length) : (jsArraySet arr i v).length = arr.length := by
  unfold jsArraySet
  split
  · rfl
  · rename_i hneg
    rw [if_pos (h (Int.not_lt.mp hneg))]
    simp

theorem getElem?_jsArraySet_eq (arr : List JSVal) (i : Int) (v : JSVal) (j : Nat)
    (hj : j < arr.length) (hi : 0 ≤ i) (hij : i.toNat = j) :
    (jsArraySet arr i v)[j]? = some v := by
  unfold jsArraySet
  rw [if_neg (Int.not_lt.mpr hi), if_pos (hij ▸ hj), hij]
  exact List.getElem?_set_eq_of_lt v hj

theorem getElem?_jsArraySet_ne (arr : List JSVal) (i : Int) (v : JSVal) (j : Nat)
    (hj : j < arr.length) (h : i < 0 ∨ i.toNat ≠ j) :
    (jsArraySet arr i v)[j]? = arr[j]? := by
  unfold jsArraySet
  split
  · rfl
  · rename_i hneg
    have hi : 0 ≤ i := Int.not_lt.mp hneg
    have hne : i.toNat ≠ j := by
      rcases h with h | h
      · exact absurd h hneg
      · exact h
    split
    · exact List.getElem?_set_ne hne
    · rw [List.append_assoc, List.getElem?_append_left hj]

theorem lastWith_eq_none_iff {p : ArtistSummary → Bool} {l : List ArtistSummary} :
    lastWith p l = none ↔ ∀ a ∈ l, p a = false := by
  rw [lastWith_eq_getLast?_filter, List.getLast?_eq_none_iff, List.filter_eq_nil_iff]
  simp only [Bool.not_eq_true]

theorem foldl_seats_getElem? (l : List ArtistSummary) (arr : List JSVal) (j : Nat)
    (hj : j < arr.length) :
    (l.foldl (fun seats a => jsArraySet seats (a.seat - 1) (JSVal.summary a)) arr)[j]? =
      match lastWith (fun a => decide (a.seat = (j : Int) + 1)) l with
      | some b => some (JSVal.summary b)
      | none => arr[j]? := by
  induction l generalizing arr with
  | nil => rfl
  | cons a l ih =>
    rw [List.foldl_cons]
    have hj' : j < (jsArraySet arr (a.seat - 1) (JSVal.summary a)).length :=
      Nat.lt_of_lt_of_le hj (length_jsArraySet_le arr _ _)
    rw [ih _ hj']
    simp only [lastWith]
    cases hl : lastWith (fun a => decide (a.seat = (j : Int) + 1)) l with
    | some b => rfl
    | none =>
      by_cases hpa : a.seat = (j : Int) + 1
      · rw [getElem?_jsArraySet_eq arr _ _ j hj (by omega) (by omega)]
        simp [hpa]
      · rw [getElem?_jsArraySet_ne arr _ _ j hj (by omega)]
        simp [hpa]

theorem foldl_seats_length (l : List ArtistSummary) (arr : List JSVal)
    (h : ∀ a ∈ l, 1 ≤ a.seat ∧ a.seat ≤ (arr.length : Int)) :
    (l.foldl (fun seats a => jsArraySet seats (a.seat - 1) (JSVal.summary a)) arr).length
      = arr.length := by
  induction l generalizing arr with
  | nil => rfl
  | cons a l ih =>
    rw [List.foldl_cons]
    have ha := h a (List.mem_cons_self _ _)
    have hlen : (jsArraySet arr (a.seat - 1) (JSVal.summary a)).length = arr.length :=
      length_jsArraySet_of_lt arr _ _ (fun _ => by omega)
    rw [ih _ (fun x hx => by
      rw [hlen]
      exact h x (List.mem_cons_of_mem _ hx)), hlen]

theorem foldl_seats_nonpos (l : List ArtistSummary) (arr : List JSVal)
    (h : ∀ a ∈ l, a.seat ≤ 0) :
    l.foldl (fun seats a => jsArraySet seats (a.seat - 1) (JSVal.summary a)) arr = arr := by
  induction l generalizing arr with
  | nil => rfl
  | cons a l ih =>
    rw [List.foldl_cons]
    have ha := h a (List.mem_cons_self _ _)
    have hset : jsArraySet arr (a.seat - 1) (JSVal.summary a) = arr := by
      unfold jsArraySet
      rw [if_pos (by omega)]
    rw [hset]
    exact ih arr fun x hx => h x (List.mem_cons_of_mem _ hx)

theorem jsArraySet_extend_spec (arr : List JSVal) (i : Int) (v : JSVal)
    (h : (arr.length : Int) ≤ i) :
    (jsArraySet arr i v).length = i.toNat + 1 ∧ (jsArraySet arr i v)[i.toNat]? = some v := by
  have hrw : jsArraySet arr i v
      = arr ++ List.replicate (i.toNat - arr.length) JSVal.undefined ++ [v] := by
    unfold jsArraySet
    rw [if_neg (by omega), if_neg (by omega)]
  have hl : (arr ++ List.replicate (i.toNat - arr.length) JSVal.undefined).length
      = i.toNat := by
    simp only [List.length_append, List.length_replicate]
    omega
  rw [hrw]
  constructor
  · simp only [List.length_append, List.length_replicate, List.length_cons,
      List.length_nil]
    omega
  · have hc := List.getElem?_concat_length
      (arr ++ List.replicate (i.toNat - arr.length) JSVal.undefined) v
    rw [hl] at hc
    exact hc

/-- C1: for every capacity `N ≥ 0` and list of artist summaries whose seat
values are unique and lie in `[1, N]`, the derived seat sequence has length
exactly `N`, and for every index `i < N`, slot `i` holds the (unique) summary
with `seat = i + 1` when one exists in the list and `null` otherwise. -/
theorem artistSeats_unique_in_range (n : Nat) (l : List ArtistSummary)
    (huniq : (l.map (fun a => a.seat)).Nodup)
    (hrange : ∀ a ∈ l, 1 ≤ a.seat ∧ a.seat ≤ (n : Int)) :
    (artistSeats n l).length = n ∧
    ∀ i : Nat, i < n →
      (∀ a ∈ l, a.seat = (i : Int) + 1 →
        (artistSeats n l)[i]? = some (JSVal.summary a)) ∧
      ((∀ a ∈ l, a.seat ≠ (i : Int) + 1) →
        (artistSeats n l)[i]? = some JSVal.null) := by
  have hlen : (artistSeats n l).length = n := by
    have h := foldl_seats_length l (List.replicate n JSVal.null)
      (by simpa using hrange)
    simpa [artistSeats] using h
  refine ⟨hlen, fun i hi => ⟨?_, ?_⟩⟩
  · intro a ha hseat
    have hslot := foldl_seats_getElem? l (List.replicate n JSVal.null) i (by simpa using hi)
    unfold artistSeats
    rw [hslot]
    cases hl : lastWith (fun x => decide (x.seat = (i : Int) + 1)) l with
    | none =>
      have hall := lastWith_eq_none_iff.mp hl a ha
      simp [hseat] at hall
    | some b =>
      obtain ⟨hbmem, hbp⟩ := lastWith_mem hl
      have hbseat : b.seat = (i : Int) + 1 := of_decide_eq_true hbp
      have hba : b = a :=
        List.inj_on_of_nodup_map huniq hbmem ha (hbseat.trans hseat.symm)
      rw [hba]
  · intro hnone
    have hslot := foldl_seats_getElem? l (List.replicate n JSVal.null) i (by simpa using hi)
    have hl : lastWith (fun x => decide (x.seat = (i : Int) + 1)) l = none :=
      lastWith_eq_none_iff.mpr fun a ha => decide_eq_false (hnone a ha)
    unfold artistSeats
    rw [hslot, hl, List.getElem?_replicate_of_lt hi]

theorem artistSeats_unique_in_range_witness :
    (artistSeats 3 [sampleSummary 2]).length = 3 ∧
    (artistSeats 3 [sampleSummary 2])[1]? = some (JSVal.summary (sampleSummary 2)) ∧
    (artistSeats 3 [sampleSummary 2])[0]? = some JSVal.null := by
  have h := artistSeats_unique_in_range 3 [sampleSummary 2] (by decide) (by decide)
  refine ⟨h.1, ?_, ?_⟩
  · exact (h.2 1 (by decide)).1 (sampleSummary 2) (by decide) (by decide)
  · exact (h.2 0 (by decide)).2 (by decide)

/-- C2 counterexample: with capacity `N = 0` and one summary whose seat `1`
lies outside `[1, 0]`, the derived sequence does *not* keep length `N`: the
JavaScript index assignment extends the array, and the out-of-range summary
occupies slot 0. -/
theorem artistSeats_out_of_range_counterexample :
    (artistSeats 0 [sampleSummary 1]).length ≠ 0 ∧
    (artistSeats 0 [sampleSummary 1])[0]? = some (JSVal.summary (sampleSummary 1)) := by
  decide

/-- C2 (amended): the seat derivation is total (no exception in the model).
A summary whose seat value is below `1` is ignored: when every seat is
nonpositive the result is exactly the length-`N` all-`null` sequence.  A
summary whose seat value exceeds `N` is *not* ignored: the sequence is
extended to length `seat` and slot `seat - 1` holds that summary. -/
theorem artistSeats_out_of_range (n : Nat) (l : List ArtistSummary) :
    ((∀ a ∈ l, a.seat ≤ 0) → artistSeats n l = List.replicate n JSVal.null) ∧
    (∀ a : ArtistSummary, (n : Int) < a.seat →
      (artistSeats n [a]).length = a.seat.toNat ∧
      (artistSeats n [a])[a.seat.toNat - 1]? = some (JSVal.summary a)) := by
  constructor
  · intro h
    exact foldl_seats_nonpos l _ h
  · intro a ha
    have hstep : artistSeats n [a]
        = jsArraySet (List.replicate n JSVal.null) (a.seat - 1) (JSVal.summary a) := rfl
    have hle : (((List.replicate n JSVal.null).length : Nat) : Int) ≤ a.seat - 1 := by
      simp only [List.length_replicate]
      omega
    obtain ⟨h1, h2⟩ := jsArraySet_extend_spec (List.replicate n JSVal.null)
      (a.seat - 1) (JSVal.summary a) hle
    rw [hstep]
    refine ⟨?_, ?_⟩
    · rw [h1]
      omega
    · have hidx : a.seat.toNat - 1 = (a.seat - 1).toNat := by omega
      rw [hidx]
      exact h2

theorem artistSeats_out_of_range_witness :
    artistSeats 2 [sampleSummary 0, sampleSummaryB (-3)] = List.replicate 2 JSVal.null ∧
    (artistSeats 2 [sampleSummary 5]).length = 5 ∧
    (artistSeats 2 [sampleSummary 5])[4]? = some (JSVal.summary (sampleSummary 5)) := by
  have h := artistSeats_out_of_range 2 [sampleSummary 0, sampleSummaryB (-3)]
  have h5 := (artistSeats_out_of_range 2 [sampleSummary 5]).2 (sampleSummary 5) (by decide)
  exact ⟨h.1 (by decide), h5.1, h5.2⟩

/-- C3: for a capacity `N ≥ 1` and a seat value `s ∈ [1, N]` claimed by two
or more summaries of the list, the derivation raises no exception (the model
is total and yields a value) and slot `s - 1` holds exactly the last such
summary in list order. -/
theorem artistSeats_last_write_wins (n : Nat) (s : Int) (l : List ArtistSummary)
    (hn : 1 ≤ n) (hs1 : 1 ≤ s) (hs2 : s ≤ (n : Int))
    (hdup : 2 ≤ (l.filter (fun a => decide (a.seat = s))).length) :
    ∃ b, (l.filter (fun a => decide (a.seat = s))).getLast? = some b ∧
      b ∈ l ∧ b.seat = s ∧
      (artistSeats n l)[s.toNat - 1]? = some (JSVal.summary b) := by
  have hne : l.filter (fun a => decide (a.seat = s)) ≠ [] := by
    intro h0
    rw [h0] at hdup
    simp at hdup
  cases hlast : (l.filter (fun a => decide (a.seat = s))).getLast? with
  | none =>
    rw [List.getLast?_eq_none_iff] at hlast
    exact absurd hlast hne
  | some b =>
    have hlw : lastWith (fun a => decide (a.seat = s)) l = some b := by
      rw [lastWith_eq_getLast?_filter]
      exact hlast
    obtain ⟨hbmem, hbp⟩ := lastWith_mem hlw
    have hbseat : b.seat = s := of_decide_eq_true hbp
    refine ⟨b, rfl, hbmem, hbseat, ?_⟩
    have hj : s.toNat - 1 < (List.replicate n JSVal.null).length := by
      simp only [List.length_replicate]
      omega
    have hslot := foldl_seats_getElem? l (List.replicate n JSVal.null) (s.toNat - 1) hj
    have hcast : ((s.toNat - 1 : Nat) : Int) + 1 = s := by omega
    have hpred : (fun a : ArtistSummary => decide (a.seat = ((s.toNat - 1 : Nat) : Int) + 1))
        = (fun a : ArtistSummary => decide (a.seat = s)) := by
      funext a
      rw [hcast]
    rw [hpred] at hslot
    unfold artistSeats
    rw [hslot, hlw]

theorem artistSeats_last_write_wins_witness :
    ∃ b, ([sampleSummary 1, sampleSummaryB 1].filter
        (fun a => decide (a.seat = 1))).getLast? = some b ∧
      b ∈ [sampleSummary 1, sampleSummaryB 1] ∧ b.seat = 1 ∧
      (artistSeats 1 [sampleSummary 1, sampleSummaryB 1])[0]? = some (JSVal.summary b) :=
  artistSeats_last_write_wins 1 1 [sampleSummary 1, sampleSummaryB 1]
    (by decide) (by decide) (by decide) (by decide)

/-- C4: the seat derivation is a pure, deterministic function of its two
inputs.  Reading the memo modifies neither query input (the state comes back
unchanged), equal inputs yield equal derived sequences, and deriving twice
from the same unchanged state yields an identical result. -/
theorem artistSeatsMemo_pure :
    (∀ st : EventSeatsQueryState, (artistSeatsMemo st).1 = st) ∧
    (∀ st₁ st₂ : EventSeatsQueryState, st₁.eventData = st₂.eventData →
      st₁.artistSummaries = st₂.artistSummaries →
      (artistSeatsMemo st₁).2 = (artistSeatsMemo st₂).2) ∧
    (∀ st : EventSeatsQueryState,
      artistSeatsMemo ((artistSeatsMemo st).1) = artistSeatsMemo st) := by
  refine ⟨?_, ?_, ?_⟩
  · intro st
    obtain ⟨ed, as⟩ := st
    cases ed <;> cases as <;> rfl
  · intro st₁ st₂ h1 h2
    obtain ⟨e1, a1⟩ := st₁
    obtain ⟨e2, a2⟩ := st₂
    have h1' : e1 = e2 := h1
    have h2' : a1 = a2 := h2
    subst h1'
    subst h2'
    rfl
  · intro st
    obtain ⟨ed, as⟩ := st
    cases ed <;> cases as <;> rfl

theorem artistSeatsMemo_pure_witness :
    (artistSeatsMemo { eventData := none, artistSummaries := some [sampleSummary 1] }).1
      = { eventData := none, artistSummaries := some [sampleSummary 1] } ∧
    (artistSeatsMemo { eventData := none, artistSummaries := some [sampleSummary 1] }).2
      = (artistSeatsMemo { eventData := none, artistSummaries := some [sampleSummary 1] }).2 :=
  ⟨artistSeatsMemo_pure.1 _,
   artistSeatsMemo_pure.2.1 { eventData := none, artistSummaries := some [sampleSummary 1] }
     { eventData := none, artistSummaries := some [sampleSummary 1] } rfl rfl⟩

/-- C5 counterexample: from a state in which the artist "luna-starweaver" is
selected, updating the selection with `null` clears the selected-artist
signal, but it does not remove the `artist` query parameter: the navigation
is issued with `search: {artist: ""}`, so the parameter remains present with
the empty-string value. -/
theorem updateSelectedArtist_clear_counterexample :
    (updateSelectedArtist none sampleRoute).selectedArtist = none ∧
    (updateSelectedArtist none sampleRoute).searchArtist ≠ none ∧
    (updateSelectedArtist none sampleRoute).searchArtist = some "" := by
  decide

/-- C5 (amended): invoking the selection update with `null` clears the
selection and sets the `artist` query parameter to the empty string (a
replace-style update leaving history length and path unchanged); the empty
parameter value is read back as a null selection on the next page load. -/
theorem updateSelectedArtist_clear (st : RouteState) :
    (updateSelectedArtist none st).selectedArtist = none ∧
    (updateSelectedArtist none st).searchArtist = some "" ∧
    (updateSelectedArtist none st).historyLength = st.historyLength ∧
    (updateSelectedArtist none st).path = st.path ∧
    initialSelectedArtist (updateSelectedArtist none st).searchArtist = none := by
  unfold updateSelectedArtist
  rw [if_pos (Or.inl rfl)]
  exact ⟨rfl, rfl, rfl, rfl, rfl⟩

/-- C7: the initial selection is seeded from the `artist` query parameter at
page load: a nonempty value present seeds exactly that value (in particular,
a value written by a previous selection is restored identically), while an
absent or empty parameter seeds `null`. -/
theorem initialSelectedArtist_seeded :
    (∀ s : String, s ≠ "" → initialSelectedArtist (some s) = some s) ∧
    initialSelectedArtist (some "") = none ∧
    initialSelectedArtist none = none ∧
    (∀ (st : RouteState) (s : String), s ≠ "" →
      initialSelectedArtist (updateSelectedArtist (some s) st).searchArtist = some s) := by
  refine ⟨fun s hs => ?_, rfl, rfl, fun st s hs => ?_⟩
  · simp [initialSelectedArtist, hs]
  · unfold updateSelectedArtist
    rw [if_neg (by simp [hs])]
    unfold initialSelectedArtist
    simp [hs]

theorem initialSelectedArtist_seeded_witness :
    initialSelectedArtist (some "luna-starweaver") = some "luna-starweaver" ∧
    initialSelectedArtist
        (updateSelectedArtist (some "luna-starweaver") sampleRoute).searchArtist
      = some "luna-starweaver" :=
  ⟨initialSelectedArtist_seeded.1 "luna-starweaver" (by decide),
   initialSelectedArtist_seeded.2.2.2 sampleRoute "luna-starweaver" (by decide)⟩

/-- C8: every selection update (selecting a slug or clearing with `null`)
navigates with `replace: true` and writes only the `artist` query parameter
and the selected-artist signal: across any sequence of selection operations
the navigation history length is unchanged and the rest of the route state
(the path) is unmodified. -/
theorem updateSelectedArtist_replace_frame (ops : List (Option String)) (st : RouteState) :
    (ops.foldl (fun s a => updateSelectedArtist a s) st).historyLength = st.historyLength ∧
    (ops.foldl (fun s a => updateSelectedArtist a s) st).path = st.path := by
  induction ops generalizing st with
  | nil => exact ⟨rfl, rfl⟩
  | cons a ops ih =>
    rw [List.foldl_cons]
    have hstep : (updateSelectedArtist a st).historyLength = st.historyLength ∧
        (updateSelectedArtist a st).path = st.path := by
      unfold updateSelectedArtist
      split <;> exact ⟨rfl, rfl⟩
    obtain ⟨ih1, ih2⟩ := ih (updateSelectedArtist a st)
    exact ⟨ih1.trans hstep.1, ih2.trans hstep.2⟩

/-- C9: the double-click confirm widget is a two-state machine over
{idle, confirming}: a click in idle enters confirming without invoking
`onConfirm` and arms the 5000 ms reset timer; a click in confirming invokes
`onConfirm` exactly once, cancels the timer and returns to idle; the armed
timer firing (no second click within the delay) reverts to idle without
invoking `onConfirm`; a click made in idle never invokes `onConfirm`. -/
theorem handleDoubleClick_machine :
    (∀ st : DCState, st.confirming = false →
      handleDoubleClick st
        = ({ confirming := true, timer := some confirmResetDelayMs }, false)) ∧
    (∀ st : DCState, st.confirming = true →
      handleDoubleClick st = ({ confirming := false, timer := none }, true)) ∧
    (∀ st : DCState, st.timer ≠ none →
      timerFire st = ({ confirming := false, timer := none }, false)) ∧
    confirmResetDelayMs = 5000 := by
  refine ⟨fun st h => ?_, fun st h => ?_, fun st h => ?_, rfl⟩
  · simp [handleDoubleClick, h]
  · simp [handleDoubleClick, h]
  · unfold timerFire
    cases ht : st.timer with
    | none => exact absurd ht h
    | some d => rfl

theorem handleDoubleClick_machine_witness :
    handleDoubleClick { confirming := false, timer := none }
      = ({ confirming := true, timer := some confirmResetDelayMs }, false) ∧
    handleDoubleClick { confirming := true, timer := some confirmResetDelayMs }
      = ({ confirming := false, timer := none }, true) ∧
    timerFire { confirming := true, timer := some confirmResetDelayMs }
      = ({ confirming := false, timer := none }, false) :=
  ⟨handleDoubleClick_machine.1 _ rfl, handleDoubleClick_machine.2.1 _ rfl,
   handleDoubleClick_machine.2.2.1 _ (by decide)⟩

/-- C6: gateway behaviour at unknown identifiers.  `fetchArtist` rejects
with a not-found error as intended.  The promise returned by `fetchEvent`,
however, never rejects: for an unknown event id it stays pending forever,
because the `throw new Error("Event Not Found")` after the lookup loop runs
inside the `setTimeout` callback — outside the executor's synchronous body —
and therefore surfaces as an uncaught exception instead of a rejection; the
uncaught exception is raised on every call, even ones that found the event. -/
theorem fetchEvent_never_rejects :
    (fetchEvent "no-such-event").1 = PromiseOutcome.pending ∧
    (fetchEvent "no-such-event").2 = some "Event Not Found" ∧
    (fetchEvent "event-1").2 = some "Event Not Found" ∧
    fetchArtist "no-such-artist" = PromiseOutcome.rejected "Artist Not Found" := by
  decide

theorem mapIdxFrom_length {α β : Type} (f : Nat → α → β) (i : Nat) (l : List α) :
    (mapIdxFrom f i l).length = l.length := by
  induction l generalizing i with
  | nil => rfl
  | cons a l ih => simp [mapIdxFrom, ih]

theorem mapIdxFrom_map {α β γ : Type} (f : Nat → α → β) (g : β → γ) (i : Nat) (l : List α) :
    (mapIdxFrom f i l).map g = mapIdxFrom (fun j a => g (f j a)) i l := by
  induction l generalizing i with
  | nil => rfl
  | cons a l ih => simp [mapIdxFrom, ih]

theorem mapIdxFrom_const {α β : Type} (h : α → β) (i : Nat) (l : List α) :
    mapIdxFrom (fun _ a => h a) i l = l.map h := by
  induction l generalizing i with
  | nil => rfl
  | cons a l ih => simp [mapIdxFrom, ih]

theorem mapIdxFrom_index {α β : Type} (gi : Nat → β) (i : Nat) (l : List α) :
    mapIdxFrom (fun j _ => gi j) i l = (List.range' i l.length).map gi := by
  induction l generalizing i with
  | nil => rfl
  | cons a l ih => simp [mapIdxFrom, ih, List.range'_succ]

/-- C10: for every event id, `fetchEventArtists` returns exactly the mock
artists whose `eventId` field matches, in their original order, assigning
the summary at position `i` the seat `i + 2`: the returned seats are the
consecutive values `2, 3, …` in order, hence pairwise distinct; seat 1 is
never assigned; and for every mock event with fewer seats than matching
artists plus one, some returned seat value exceeds that event's capacity. -/
theorem fetchEventArtists_spec :
    (∀ eid : String,
      (fetchEventArtists eid).map (fun s => (s.name, s.slug, s.eventId, s.imageUrl))
        = (MockArtistData.filter (fun a => decide (a.eventId = eid))).map
            (fun a => (a.name, a.slug, a.eventId, a.imageUrl))) ∧
    (∀ eid : String,
      (fetchEventArtists eid).map (fun s => s.seat)
        = (List.range' 0
            (MockArtistData.filter (fun a => decide (a.eventId = eid))).length).map
            (fun i : Nat => (i : Int) + 2)) ∧
    (∀ eid : String, ((fetchEventArtists eid).map (fun s => s.seat)).Nodup) ∧
    (∀ eid : String, ∀ s ∈ fetchEventArtists eid, s.seat ≠ 1) ∧
    (∀ e ∈ allMockEvents,
      e.seats < (fetchEventArtists e.slug).length + 1 →
      ∃ s ∈ fetchEventArtists e.slug, (e.seats : Int) < s.seat) := by
  have h2 : ∀ eid : String,
      (fetchEventArtists eid).map (fun s => s.seat)
        = (List.range' 0
            (MockArtistData.filter (fun a => decide (a.eventId = eid))).length).map
            (fun i : Nat => (i : Int) + 2) := by
    intro eid
    unfold fetchEventArtists
    rw [mapIdxFrom_map]
    exact mapIdxFrom_index (fun i : Nat => (i : Int) + 2) 0 _
  refine ⟨?_, h2, ?_, ?_, ?_⟩
  · intro eid
    unfold fetchEventArtists
    rw [mapIdxFrom_map]
    exact mapIdxFrom_const (fun a : Artist => (a.name, a.slug, a.eventId, a.imageUrl)) 0 _
  · intro eid
    rw [h2 eid]
    refine List.Nodup.map ?_ (List.nodup_range' 0 _)
    intro a b hab
    simp only at hab
    omega
  · intro eid s hs
    have hmem : s.seat ∈ (fetchEventArtists eid).map (fun s => s.seat) :=
      List.mem_map_of_mem _ hs
    rw [h2 eid] at hmem
    obtain ⟨i, _, hieq⟩ := List.mem_map.mp hmem
    omega
  · decide

theorem fetchEventArtists_spec_witness :
    ((fetchEventArtists "event-4").map (fun s => s.seat)
      = (List.range' 0 2).map (fun i : Nat => (i : Int) + 2)) ∧
    (∃ s ∈ fetchEventArtists "event-4", (1 : Int) < s.seat) :=
  ⟨fetchEventArtists_spec.2.1 "event-4",
   fetchEventArtists_spec.2.2.2.2
     { name := "Event 4", slug := "event-4", hostedBy := "LSFC",
       hostedByUrl := "http://lonestarfurcon.com/",
       startDate := "2025-12-10", endDate := "2025-12-12",
       seats := 1, seatsAvailable := some 0 }
     (by decide) (by decide)⟩
